import Mathlib

/-!
Verification development for the DevConnect server real-time layer.

The repository contains two variants of the Socket.IO entry point:
the `server.js` variant (bare-userId personal rooms, validated
sendMessage handler) and a second variant (here called `P9`) that
prefixes personal rooms with `user_`, has a `join_user_room` handler
and an unvalidated `send_message` handler.  Both variants keep presence
in a JavaScript `Map` called `onlineUsers` keyed by user id, holding a
single `{socketId, user, lastSeen}` record per user.

The embedding below translates those handlers into pure Lean functions
over an explicit server state.  JavaScript `Map` objects are modelled
as association lists with `Map.set` / `Map.delete` / `Map.has` /
`Map.keys` semantics (insertion order preserved, `set` replaces in
place).  Wall-clock `Date` values are modelled as natural numbers
passed in by the event; `Date`-valued `timestamp` fields that appear in
outbound payloads but in no claim are omitted from the payload model.
-/

/-- Identity snapshot attached to a socket by the authentication
middleware (the mongoose user document, password stripped). -/
structure UserInfo where
  name : String
  avatar : String
  role : String
deriving DecidableEq, Repr

/-- Value stored in the `onlineUsers` map for a user:
`{ socketId: socket.id, user: socket.user, lastSeen: new Date() }`. -/
structure Entry where
  socketId : String
  user : UserInfo
  lastSeen : Nat
deriving DecidableEq, Repr

/-- JavaScript `Map.set`: replace the value in place if the key is
present (insertion order kept), otherwise append. -/
def mapSet (m : List (String × Entry)) (k : String) (v : Entry) :
    List (String × Entry) :=
  if m.any (fun p => p.1 = k) then
    m.map (fun p => if p.1 = k then (k, v) else p)
  else
    m ++ [(k, v)]

/-- JavaScript `Map.delete`: remove the binding for the key. -/
def mapDelete (m : List (String × Entry)) (k : String) :
    List (String × Entry) :=
  m.filter (fun p => ¬ p.1 = k)

/-- JavaScript `Map.has`. -/
def mapHas (m : List (String × Entry)) (k : String) : Bool :=
  m.any (fun p => p.1 = k)

/-- JavaScript `Map.get`, as an `Option`. -/
def mapFind (m : List (String × Entry)) (k : String) : Option Entry :=
  (m.find? (fun p => p.1 = k)).map (fun p => p.2)

/-- `Array.from(map.keys())`: keys in insertion order. -/
def mapKeys (m : List (String × Entry)) : List String :=
  m.map (fun p => p.1)

/-- The `isUserOnline` helper of `utils/socketUtils.js`:
`connectedUsers.has(userId)`. -/
def isUserOnline (m : List (String × Entry)) (userId : String) : Bool :=
  mapHas m userId

/-- The `getOnlineUsers` helper of `utils/socketUtils.js`:
`Array.from(connectedUsers.keys())`. -/
def getOnlineUsers (m : List (String × Entry)) : List String :=
  mapKeys m

/-- One live socket: the connection context after the authentication
middleware has attached `socket.userId` and `socket.user`. -/
structure SessionCtx where
  sessionId : String
  userId : String
  user : UserInfo
deriving DecidableEq, Repr

/-- Whole-server state: the `onlineUsers` map, the set of live sockets
managed by the transport, and the room-membership relation
(socket id, room name). -/
structure ServerState where
  onlineUsers : List (String × Entry)
  sessions : List SessionCtx
  rooms : List (String × String)
deriving DecidableEq, Repr

/-- State of a freshly started process: the registry is process-local
and rebuilt from nothing. -/
def initState : ServerState := ⟨[], [], []⟩

/-- Client-supplied `messageData` object for the `sendMessage` event.
Each field is optional because JavaScript object fields may be absent;
`mid` models the `_id` field. -/
structure MessageData where
  mid : Option String
  sender : Option String
  receiver : Option String
  content : Option String
deriving DecidableEq, Repr

/-- Truthiness of an optional string field, as tested by
`!messageData.receiver || !messageData.content`: absent (`undefined`)
and the empty string are both falsy. -/
def truthy : Option String → Bool
  | none => false
  | some s => s ≠ ""

/-- Wire payloads that the handlers of this repository construct.
Constructors mirror the object literals in the source; none of those
literals contains an unread-count field. -/
inductive Payload where
  | userList : List String → Payload
  | uid : String → Payload
  | message : Option MessageData → Payload
  | delivered : Option String → Payload
  | errText : String → Payload
  | typingInfo : String → Bool → Payload
  | connReqEnvelope : String → String → String → String → Payload
  | booking : Option String → Option String → Option String → Payload
deriving DecidableEq, Repr

/-- One outbound emission, tagged by its Socket.IO addressing mode:
`io.emit`, `socket.broadcast.emit`, `io.to(room).emit`,
`socket.to(room).emit` (room minus the sender) and `socket.emit`. -/
inductive Emission where
  | toAll : String → Payload → Emission
  | broadcastFrom : String → String → Payload → Emission
  | toRoom : String → String → Payload → Emission
  | toRoomExcept : String → String → String → Payload → Emission
  | toSocket : String → String → Payload → Emission
deriving DecidableEq, Repr

/-- Whether an emission is delivered to the socket `sid` in state
`st`, following Socket.IO delivery semantics. -/
def deliversTo (st : ServerState) (e : Emission) (sid : String) : Bool :=
  match e with
  | .toAll _ _ => st.sessions.any (fun c => c.sessionId = sid)
  | .broadcastFrom src _ _ =>
      (¬ sid = src) && st.sessions.any (fun c => c.sessionId = sid)
  | .toRoom r _ _ => st.rooms.any (fun m => m.1 = sid ∧ m.2 = r)
  | .toRoomExcept r src _ _ =>
      (¬ sid = src) && st.rooms.any (fun m => m.1 = sid ∧ m.2 = r)
  | .toSocket tgt _ _ => sid = tgt

/-- External collaborators of the authentication middleware:
`jwt.verify` (returns the embedded subject or fails) and
`User.findById(...).select("-password")`. -/
structure AuthEnv where
  verify : String → Option String
  findUser : String → Option UserInfo

/-- The authentication middleware `io.use(...)` of both variants:
reject when the token is absent, when `jwt.verify` throws, or when no
user record matches; otherwise produce the attached identity. -/
def serverAuth (A : AuthEnv) (tok : Option String) :
    Option (String × UserInfo) :=
  match tok with
  | none => none
  | some t =>
    match A.verify t with
    | none => none
    | some uid =>
      match A.findUser uid with
      | none => none
      | some u => some (uid, u)

/-- Result of a connection attempt: the state afterwards, the
emissions produced, and whether the connection was admitted. -/
structure ConnectOut where
  state : ServerState
  ems : List Emission
  accepted : Bool
deriving Repr

/-- Connection handling of the `server.js` variant: middleware first;
on success the handler sets `onlineUsers`, joins the socket to the
bare-user-id room (plus its transport-assigned id room), then
`io.emit("onlineUsers", ...)` and `socket.broadcast.emit("userOnline",
...)`.  A socket id already live cannot be reissued by the transport,
so such a connect is modelled as a no-op. -/
def serverConnect (A : AuthEnv) (st : ServerState) (sid : String)
    (tok : Option String) (now : Nat) : ConnectOut :=
  match serverAuth A tok with
  | none => ⟨st, [], false⟩
  | some (uid, u) =>
    if st.sessions.any (fun c => c.sessionId = sid) then
      ⟨st, [], false⟩
    else
      let online := mapSet st.onlineUsers uid ⟨sid, u, now⟩
      let st2 : ServerState :=
        ⟨online, ⟨sid, uid, u⟩ :: st.sessions,
          (sid, sid) :: (sid, uid) :: st.rooms⟩
      ⟨st2,
        [Emission.toAll "onlineUsers" (Payload.userList (mapKeys online)),
         Emission.broadcastFrom sid "userOnline" (Payload.uid uid)],
        true⟩

/-- Validation test of the `server.js` `sendMessage` handler:
`!messageData || !messageData.receiver || !messageData.content`. -/
def msgValid : Option MessageData → Bool
  | none => false
  | some d => truthy d.receiver && truthy d.content

/-- Receiver extraction `messageData.receiver._id || messageData.receiver`
for a string-valued receiver field. -/
def receiverIdOf (d : MessageData) : String :=
  match d.receiver with
  | some r => r
  | none => ""

/-- The `sendMessage` handler of the `server.js` variant: invalid data
answers the sender with one `messageError`; valid data is forwarded
verbatim to the receiver room (`socket.to`) and acknowledged to the
sender.  No state is mutated. -/
def serverSendMessage (st : ServerState) (sid : String)
    (data : Option MessageData) : ServerState × List Emission :=
  if st.sessions.any (fun c => c.sessionId = sid) then
    if msgValid data then
      match data with
      | some d =>
        (st,
          [Emission.toRoomExcept (receiverIdOf d) sid "newMessage"
             (Payload.message (some d)),
           Emission.toSocket sid "messageDelivered"
             (Payload.delivered d.mid)])
      | none => (st, [])
    else
      (st, [Emission.toSocket sid "messageError"
              (Payload.errText "Invalid message data")])
  else
    (st, [])

/-- Disconnect handling of the `server.js` variant: the handler does
`onlineUsers.delete(socket.userId)`, re-broadcasts the key list and
broadcasts `userOffline`; the transport drops the socket and all its
room memberships. -/
def serverDisconnect (st : ServerState) (sid : String) :
    ServerState × List Emission :=
  match st.sessions.find? (fun c => c.sessionId = sid) with
  | none => (st, [])
  | some ctx =>
    let online := mapDelete st.onlineUsers ctx.userId
    let st2 : ServerState :=
      ⟨online, st.sessions.filter (fun c => ¬ c.sessionId = sid),
        st.rooms.filter (fun m => ¬ m.1 = sid)⟩
    (st2,
      [Emission.toAll "onlineUsers" (Payload.userList (mapKeys online)),
       Emission.broadcastFrom sid "userOffline" (Payload.uid ctx.userId)])

/-- Inbound events of the `server.js` variant that touch the registry
or the router (the `typing` and `messagesRead` handlers mutate no
registry state and are irrelevant to the claims, so the event alphabet
is restricted to the state-relevant handlers). -/
inductive SockEvent where
  | connect : String → Option String → Nat → SockEvent
  | sendMsg : String → Option MessageData → SockEvent
  | disconnect : String → SockEvent
deriving DecidableEq, Repr

/-- One event-loop step of the `server.js` variant. -/
def serverStep (A : AuthEnv) (st : ServerState) (ev : SockEvent) :
    ServerState × List Emission :=
  match ev with
  | .connect sid tok now =>
    let o := serverConnect A st sid tok now
    (o.state, o.ems)
  | .sendMsg sid data => serverSendMessage st sid data
  | .disconnect sid => serverDisconnect st sid

/-- Run a whole event trace, collecting the state and every emission
in order. -/
def serverTrace (A : AuthEnv) (st : ServerState) :
    List SockEvent → ServerState × List Emission
  | [] => (st, [])
  | e :: rest =>
    let o := serverStep A st e
    let r := serverTrace A o.1 rest
    (r.1, o.2 ++ r.2)

/-- State reached from a fresh process by an event trace. -/
def serverReach (A : AuthEnv) (evs : List SockEvent) : ServerState :=
  (serverTrace A initState evs).1

/-- Connection handling of the `P9` variant: identical middleware and
`onlineUsers` update, but the personal room is the prefixed name
`user_` ++ userId. -/
def p9Connect (A : AuthEnv) (st : ServerState) (sid : String)
    (tok : Option String) (now : Nat) : ConnectOut :=
  match serverAuth A tok with
  | none => ⟨st, [], false⟩
  | some (uid, u) =>
    if st.sessions.any (fun c => c.sessionId = sid) then
      ⟨st, [], false⟩
    else
      let online := mapSet st.onlineUsers uid ⟨sid, u, now⟩
      let st2 : ServerState :=
        ⟨online, ⟨sid, uid, u⟩ :: st.sessions,
          (sid, sid) :: (sid, "user_" ++ uid) :: st.rooms⟩
      ⟨st2,
        [Emission.toAll "online_users" (Payload.userList (mapKeys online)),
         Emission.broadcastFrom sid "user_online" (Payload.uid uid)],
        true⟩

/-- The `join_user_room` handler of the `P9` variant: the socket joins
the room `user_` ++ userId for the client-supplied userId, with no
ownership check.  The handler only runs for a connected socket. -/
def p9JoinUserRoom (st : ServerState) (sid : String) (userId : String) :
    ServerState :=
  if st.sessions.any (fun c => c.sessionId = sid) then
    { st with rooms := (sid, "user_" ++ userId) :: st.rooms }
  else st

/-- Client payload of the `P9` `send_message` event:
`const { receiverId, message } = data`. -/
structure P9SendData where
  receiverId : Option String
  message : Option MessageData
deriving DecidableEq, Repr

/-- Template-literal rendering of a possibly absent string. -/
def jsStr : Option String → String
  | some s => s
  | none => "undefined"

/-- The `send_message` handler of the `P9` variant: no validation.
It always emits `receive_message` with the client-supplied `message`
to the room named after the client-supplied `receiverId`; reading
`message._id` then throws a TypeError when `message` is absent, in
which case the delivery acknowledgement is never reached and the
exception escapes the handler (there is no try/catch).  The Boolean
result records whether the handler threw. -/
def p9SendMessage (st : ServerState) (sid : String) (data : P9SendData) :
    List Emission × Bool :=
  if st.sessions.any (fun c => c.sessionId = sid) then
    let e1 := Emission.toRoom ("user_" ++ jsStr data.receiverId)
      "receive_message" (Payload.message data.message)
    match data.message with
    | none => ([e1], true)
    | some m =>
      ([e1, Emission.toSocket sid "message_delivered"
             (Payload.delivered m.mid)], false)
  else
    ([], false)

/-- Client payload of the `P9` `booking_notification` event. -/
structure P9BookingData where
  userId : Option String
  msg : Option String
  ty : Option String
  bookingId : Option String
deriving DecidableEq, Repr

/-- The `booking_notification` relay of the `P9` variant: forwards the
client-supplied fields to the target user room.  The payload carries
only those fields; no unread count is computed or attached. -/
def p9BookingNotification (st : ServerState) (sid : String)
    (data : P9BookingData) : List Emission :=
  if st.sessions.any (fun c => c.sessionId = sid) then
    [Emission.toRoom ("user_" ++ jsStr data.userId) "booking_notification"
       (Payload.booking data.msg data.ty data.bookingId)]
  else
    []

/-- The `emitToUser` helper of `utils/socketUtils.js`: always targets
the prefixed room `user_` ++ userId. -/
def emitToUser (userId : String) (event : String) (data : Payload) :
    Emission :=
  Emission.toRoom ("user_" ++ userId) event data

/-- Abstract notification store (§6 of the spec): whether
`createNotification` succeeds, and the `countUnread` query.  The push
paths of this repository never call `countUnread`. -/
structure NotificationStore where
  createOk : Bool
  countUnread : String → Nat

/-- Pre-resolved database facts consumed by the `sendConnectionRequest`
REST handlers: whether the recipient record exists, whether a
connection between the two users already exists, and whether the
`connection.save()` domain write succeeds. -/
structure RestDeps where
  recipientExists : Bool
  existingConnection : Bool
  saveOk : Bool
  ioPresent : Bool
deriving DecidableEq, Repr

/-- HTTP outcome of a REST handler together with its side channel:
emissions pushed through Socket.IO and whether a notification document
was persisted. -/
structure RestOut where
  status : Nat
  ok : Bool
  emissions : List Emission
  notificationSaved : Bool
deriving DecidableEq, Repr

/-- The `sendConnectionRequest` handler of the connection controller
bundled in `controllers/notificationControllers.js`: every
post-save collaborator call (`createNotification`, `emitToUser`) is
wrapped in its own try/catch, so the request returns 201 whenever the
domain write succeeded. -/
def sendConnectionRequestGuarded (deps : RestDeps)
    (store : NotificationStore) (requesterId recipientId : String)
    (requester : UserInfo) : RestOut :=
  if requesterId = recipientId then ⟨400, false, [], false⟩
  else if ¬ deps.recipientExists then ⟨404, false, [], false⟩
  else if deps.existingConnection then ⟨400, false, [], false⟩
  else if ¬ deps.saveOk then ⟨500, false, [], false⟩
  else
    let ems :=
      if deps.ioPresent then
        [emitToUser recipientId "friend_request_received"
           (Payload.connReqEnvelope requesterId requester.name
             requester.avatar requester.role)]
      else []
    ⟨201, true, ems, store.createOk⟩

/-- The `sendConnectionRequest` handler of the `part_005` variant: the
`await createNotification(...)` call is not guarded, so a store
failure after a successful `connection.save()` jumps to the outer
catch and the request answers 500.  This variant performs no live
push at all. -/
def sendConnectionRequestP5 (deps : RestDeps) (store : NotificationStore)
    (requesterId recipientId : String) : RestOut :=
  if requesterId = recipientId then ⟨400, false, [], false⟩
  else if ¬ deps.recipientExists then ⟨404, false, [], false⟩
  else if deps.existingConnection then ⟨400, false, [], false⟩
  else if ¬ deps.saveOk then ⟨500, false, [], false⟩
  else if ¬ store.createOk then ⟨500, false, [], false⟩
  else ⟨201, true, [], true⟩

/-- Emission classifier: a `userOnline` transition broadcast for the
given user in the `server.js` variant. -/
def isOnlineBroadcast (u : String) : Emission → Bool
  | .broadcastFrom _ ev (Payload.uid v) => ev = "userOnline" && v = u
  | _ => false

/-- Emission classifier: a `userOffline` transition broadcast for the
given user in the `server.js` variant. -/
def isOfflineBroadcast (u : String) : Emission → Bool
  | .broadcastFrom _ ev (Payload.uid v) => ev = "userOffline" && v = u
  | _ => false

/-! ### Concrete fixtures used by witnesses and counterexamples -/

/-- Concrete identity snapshot. -/
def aliceInfo : UserInfo := ⟨"Alice", "a.png", "developer"⟩

/-- Second concrete identity snapshot. -/
def bobInfo : UserInfo := ⟨"Bob", "b.png", "recruiter"⟩

/-- Concrete authentication environment: a token is the user id it
verifies to, and every user id resolves to a record. -/
def authEnvW : AuthEnv :=
  ⟨fun t => some t,
   fun u => if u = "u0" then some aliceInfo else some bobInfo⟩

/-- Trace: user `u0` connects socket `s1`, then socket `s2`, then only
`s1` disconnects. -/
def trC2 : List SockEvent :=
  [SockEvent.connect "s1" (some "u0") 0,
   SockEvent.connect "s2" (some "u0") 1,
   SockEvent.disconnect "s1"]

/-- Trace: user `u0` connects socket `s1`, then a second socket `s2`. -/
def trC3 : List SockEvent :=
  [SockEvent.connect "s1" (some "u0") 0,
   SockEvent.connect "s2" (some "u0") 1]

/-- Concrete `P9`-variant state: users `A` and `B` each online with one
socket, each in its transport room and its prefixed personal room. -/
def stP9 : ServerState :=
  ⟨[("A", ⟨"sA", aliceInfo, 0⟩), ("B", ⟨"sB", bobInfo, 1⟩)],
   [⟨"sA", "A", aliceInfo⟩, ⟨"sB", "B", bobInfo⟩],
   [("sA", "sA"), ("sA", "user_A"), ("sB", "sB"), ("sB", "user_B")]⟩

/-- Malformed message for the `P9` send handler: the required `content`
field is absent. -/
def mdNoContent : MessageData := ⟨some "m1", none, none, none⟩

/-- Concrete `server.js`-variant state: users `A`, `B` and `R` each
online with one socket, each in its transport room and its bare-user-id
room. -/
def stC6 : ServerState :=
  ⟨[("A", ⟨"sA", aliceInfo, 0⟩), ("B", ⟨"sB", bobInfo, 0⟩),
    ("R", ⟨"sR", aliceInfo, 0⟩)],
   [⟨"sA", "A", aliceInfo⟩, ⟨"sB", "B", bobInfo⟩, ⟨"sR", "R", aliceInfo⟩],
   [("sA", "sA"), ("sA", "A"), ("sB", "sB"), ("sB", "B"),
    ("sR", "sR"), ("sR", "R")]⟩

/-- Message payload with a spoofed client-supplied sender field. -/
def mdSpoof : MessageData := ⟨some "m7", some "X", some "R", some "hi"⟩

/-- REST request facts: recipient exists, no prior connection, domain
write succeeds, Socket.IO instance available. -/
def depsOk : RestDeps := ⟨true, false, true, true⟩

/-- REST request facts with no Socket.IO instance attached. -/
def depsQuiet : RestDeps := ⟨true, false, true, false⟩

/-- Healthy notification store whose unread count is 5. -/
def storeA : NotificationStore := ⟨true, fun _ => 5⟩

/-- Healthy notification store whose unread count is 99. -/
def storeB : NotificationStore := ⟨true, fun _ => 99⟩

/-- Notification store whose create call fails. -/
def storeFail : NotificationStore := ⟨false, fun _ => 0⟩

/-! ### Helper lemmas about the JavaScript map model -/

theorem find?_replace_self (m : List (String × Entry)) (k : String)
    (v : Entry) (h : m.any (fun p => p.1 = k) = true) :
    (m.map (fun p => if p.1 = k then (k, v) else p)).find?
      (fun p => p.1 = k) = some (k, v) := by
  induction m with
  | nil => simp at h
  | cons q rest ih =>
    by_cases hq : q.1 = k
    · simp [hq]
    · have hr : rest.any (fun p => p.1 = k) = true := by
        simp only [List.any_cons] at h
        rcases Bool.or_eq_true_iff.mp h with h1 | h1
        · exact absurd (by simpa using h1) hq
        · exact h1
      rw [List.map_cons, if_neg hq, List.find?_cons_of_neg]
      · exact ih hr
      · simpa using hq

theorem find?_append_fresh (m : List (String × Entry)) (k : String)
    (v : Entry) (h : m.any (fun p => p.1 = k) = false) :
    (m ++ [(k, v)]).find? (fun p => p.1 = k) = some (k, v) := by
  induction m with
  | nil => simp
  | cons q rest ih =>
    simp only [List.any_cons, Bool.or_eq_false_iff] at h
    have hq : ¬ q.1 = k := by simpa using h.1
    rw [List.cons_append, List.find?_cons_of_neg]
    · exact ih h.2
    · simpa using hq

theorem mapFind_mapSet_self (m : List (String × Entry)) (k : String)
    (v : Entry) : mapFind (mapSet m k v) k = some v := by
  unfold mapFind mapSet
  by_cases h : m.any (fun p => p.1 = k) = true
  · rw [if_pos h, find?_replace_self m k v h]
    rfl
  · rw [if_neg h, find?_append_fresh m k v (Bool.eq_false_iff.mpr h)]
    rfl

theorem mapHas_mapDelete_self (m : List (String × Entry)) (k : String) :
    mapHas (mapDelete m k) k = false := by
  unfold mapHas mapDelete
  simp only [List.any_eq_false]
  intro p hp
  have := List.mem_filter.mp hp
  simpa using this.2

theorem mem_mapSet (m : List (String × Entry)) (k : String) (v : Entry)
    (p : String × Entry) (hp : p ∈ mapSet m k v) :
    p = (k, v) ∨ (p ∈ m ∧ ¬ p.1 = k) := by
  unfold mapSet at hp
  by_cases h : m.any (fun q => q.1 = k)
  · simp only [h, if_true] at hp
    rcases List.mem_map.mp hp with ⟨q, hq, hfq⟩
    by_cases hqk : q.1 = k
    · left; rw [← hfq, if_pos hqk]
    · right
      rw [← hfq, if_neg hqk]
      exact ⟨hq, hqk⟩
  · simp only [h, if_false] at hp
    rcases List.mem_append.mp hp with h1 | h1
    · right
      refine ⟨h1, ?_⟩
      intro hk
      have : m.any (fun q => q.1 = k) = true :=
        List.any_eq_true.mpr ⟨p, h1, by simpa using hk⟩
      exact absurd this (by simpa using h)
    · left; simpa using h1

/-! ### Registry invariant: a presence entry always points at a live
session of that user (the provable direction of the spec's
presence-entry equivalence) -/

/-- Registry invariant: live sockets have pairwise distinct transport
ids, and every `onlineUsers` binding stores the socket id of a live
session owned by that user. -/
def RegInv (st : ServerState) : Prop :=
  st.sessions.Pairwise (fun a b => ¬ a.sessionId = b.sessionId) ∧
  ∀ p ∈ st.onlineUsers, ∃ ctx, ctx ∈ st.sessions ∧
    ctx.userId = p.1 ∧ ctx.sessionId = p.2.socketId

theorem regInv_init : RegInv initState := by
  constructor
  · exact List.Pairwise.nil
  · intro p hp
    simp [initState] at hp

theorem regInv_serverConnect (A : AuthEnv) (st : ServerState)
    (sid : String) (tok : Option String) (now : Nat) (h : RegInv st) :
    RegInv (serverConnect A st sid tok now).state := by
  cases hA : serverAuth A tok with
  | none => simpa [serverConnect, hA] using h
  | some pr =>
    obtain ⟨uid, u⟩ := pr
    cases hFresh : st.sessions.any (fun c => c.sessionId = sid) with
    | true => simpa [serverConnect, hA, hFresh] using h
    | false =>
      have hState : (serverConnect A st sid tok now).state =
          ⟨mapSet st.onlineUsers uid ⟨sid, u, now⟩,
            ⟨sid, uid, u⟩ :: st.sessions,
            (sid, sid) :: (sid, uid) :: st.rooms⟩ := by
        simp [serverConnect, hA, hFresh]
      rw [hState]
      constructor
      · refine List.Pairwise.cons ?_ h.1
        intro c hc hEq
        have hTrue : st.sessions.any (fun c => c.sessionId = sid) = true :=
          List.any_eq_true.mpr ⟨c, hc, by simp [hEq.symm]⟩
        rw [hFresh] at hTrue
        exact Bool.false_ne_true hTrue
      · intro p hp
        rcases mem_mapSet _ _ _ _ hp with hNew | ⟨hOld, _⟩
        · exact ⟨⟨sid, uid, u⟩, List.mem_cons_self _ _,
            by rw [hNew], by rw [hNew]⟩
        · rcases h.2 p hOld with ⟨ctx, hctx, h1, h2⟩
          exact ⟨ctx, List.mem_cons_of_mem _ hctx, h1, h2⟩

theorem serverSendMessage_state (st : ServerState) (sid : String)
    (data : Option MessageData) :
    (serverSendMessage st sid data).1 = st := by
  unfold serverSendMessage
  split
  · split
    · split <;> rfl
    · rfl
  · rfl

theorem regInv_serverDisconnect (st : ServerState) (sid : String)
    (h : RegInv st) : RegInv (serverDisconnect st sid).1 := by
  cases hF : st.sessions.find? (fun c => c.sessionId = sid) with
  | none => simpa [serverDisconnect, hF] using h
  | some ctx =>
    have hctxMem : ctx ∈ st.sessions := List.mem_of_find?_eq_some hF
    have hctxSid : ctx.sessionId = sid := by
      have := List.find?_some hF
      simpa using this
    have hState : (serverDisconnect st sid).1 =
        ⟨mapDelete st.onlineUsers ctx.userId,
          st.sessions.filter (fun c => ¬ c.sessionId = sid),
          st.rooms.filter (fun m => ¬ m.1 = sid)⟩ := by
      simp [serverDisconnect, hF]
    rw [hState]
    constructor
    · exact List.Pairwise.sublist (List.filter_sublist _) h.1
    · intro p hp
      have hp2 := List.mem_filter.mp hp
      have hpOld : p ∈ st.onlineUsers := hp2.1
      have hpNe : ¬ p.1 = ctx.userId := by simpa using hp2.2
      rcases h.2 p hpOld with ⟨c, hc, h1, h2⟩
      refine ⟨c, List.mem_filter.mpr ⟨hc, ?_⟩, h1, h2⟩
      simp only [decide_eq_true_eq]
      intro hcs
      have hne : ¬ c = ctx := by
        intro hEq
        exact hpNe (by rw [← h1, hEq])
      have hR := List.Pairwise.forall (R := fun a b : SessionCtx =>
        ¬ a.sessionId = b.sessionId)
        (fun a b hab => fun hEq => hab hEq.symm) h.1 hc hctxMem hne
      exact hR (hcs.trans hctxSid.symm)

theorem regInv_serverStep (A : AuthEnv) (st : ServerState)
    (ev : SockEvent) (h : RegInv st) : RegInv (serverStep A st ev).1 := by
  match ev with
  | .connect sid tok now => exact regInv_serverConnect A st sid tok now h
  | .sendMsg sid data =>
    have := serverSendMessage_state st sid data
    simpa [serverStep, this] using h
  | .disconnect sid => exact regInv_serverDisconnect st sid h

theorem regInv_serverTrace (A : AuthEnv) (st : ServerState)
    (evs : List SockEvent) (h : RegInv st) :
    RegInv (serverTrace A st evs).1 := by
  induction evs generalizing st with
  | nil => simpa [serverTrace] using h
  | cons e rest ih =>
    have h2 := regInv_serverStep A st e h
    simpa [serverTrace] using ih (serverStep A st e).1 h2

theorem regInv_serverReach (A : AuthEnv) (evs : List SockEvent) :
    RegInv (serverReach A evs) :=
  regInv_serverTrace A initState evs regInv_init

/-! ### Room invariant of the `server.js` variant: sockets are only
ever members of their transport-id room and their bare-user-id room -/

/-- Room invariant: every room membership of the `server.js` variant
belongs to a live session and names either the session id or the bare
owning user id (never a `user_`-prefixed name). -/
def RoomInv (st : ServerState) : Prop :=
  ∀ m ∈ st.rooms, ∃ ctx, ctx ∈ st.sessions ∧ ctx.sessionId = m.1 ∧
    (m.2 = ctx.sessionId ∨ m.2 = ctx.userId)

theorem roomInv_init : RoomInv initState := by
  intro m hm
  simp [initState] at hm

theorem roomInv_serverConnect (A : AuthEnv) (st : ServerState)
    (sid : String) (tok : Option String) (now : Nat) (h : RoomInv st) :
    RoomInv (serverConnect A st sid tok now).state := by
  cases hA : serverAuth A tok with
  | none => simpa [serverConnect, hA] using h
  | some pr =>
    obtain ⟨uid, u⟩ := pr
    cases hFresh : st.sessions.any (fun c => c.sessionId = sid) with
    | true => simpa [serverConnect, hA, hFresh] using h
    | false =>
      have hState : (serverConnect A st sid tok now).state =
          ⟨mapSet st.onlineUsers uid ⟨sid, u, now⟩,
            ⟨sid, uid, u⟩ :: st.sessions,
            (sid, sid) :: (sid, uid) :: st.rooms⟩ := by
        simp [serverConnect, hA, hFresh]
      rw [hState]
      intro m hm
      rcases List.mem_cons.mp hm with h1 | hm2
      · exact ⟨⟨sid, uid, u⟩, List.mem_cons_self _ _,
          by rw [h1], by rw [h1]; left; rfl⟩
      · rcases List.mem_cons.mp hm2 with h1 | hm3
        · exact ⟨⟨sid, uid, u⟩, List.mem_cons_self _ _,
            by rw [h1], by rw [h1]; right; rfl⟩
        · rcases h m hm3 with ⟨ctx, hctx, h1, h2⟩
          exact ⟨ctx, List.mem_cons_of_mem _ hctx, h1, h2⟩

theorem roomInv_serverDisconnect (st : ServerState) (sid : String)
    (h : RoomInv st) : RoomInv (serverDisconnect st sid).1 := by
  cases hF : st.sessions.find? (fun c => c.sessionId = sid) with
  | none => simpa [serverDisconnect, hF] using h
  | some ctx =>
    have hState : (serverDisconnect st sid).1 =
        ⟨mapDelete st.onlineUsers ctx.userId,
          st.sessions.filter (fun c => ¬ c.sessionId = sid),
          st.rooms.filter (fun m => ¬ m.1 = sid)⟩ := by
      simp [serverDisconnect, hF]
    rw [hState]
    intro m hm
    have hm2 := List.mem_filter.mp hm
    have hmNe : ¬ m.1 = sid := by simpa using hm2.2
    rcases h m hm2.1 with ⟨c, hc, h1, h2⟩
    refine ⟨c, List.mem_filter.mpr ⟨hc, ?_⟩, h1, h2⟩
    simp only [decide_eq_true_eq]
    intro hcs
    exact hmNe (by rw [← h1, hcs])

theorem roomInv_serverStep (A : AuthEnv) (st : ServerState)
    (ev : SockEvent) (h : RoomInv st) : RoomInv (serverStep A st ev).1 := by
  match ev with
  | .connect sid tok now => exact roomInv_serverConnect A st sid tok now h
  | .sendMsg sid data =>
    have := serverSendMessage_state st sid data
    simpa [serverStep, this] using h
  | .disconnect sid => exact roomInv_serverDisconnect st sid h

theorem roomInv_serverTrace (A : AuthEnv) (st : ServerState)
    (evs : List SockEvent) (h : RoomInv st) :
    RoomInv (serverTrace A st evs).1 := by
  induction evs generalizing st with
  | nil => simpa [serverTrace] using h
  | cons e rest ih =>
    have h2 := roomInv_serverStep A st e h
    simpa [serverTrace] using ih (serverStep A st e).1 h2

theorem roomInv_serverReach (A : AuthEnv) (evs : List SockEvent) :
    RoomInv (serverReach A evs) :=
  roomInv_serverTrace A initState evs roomInv_init

theorem mapFind_mem (m : List (String × Entry)) (k : String) (e : Entry)
    (h : mapFind m k = some e) : (k, e) ∈ m := by
  unfold mapFind at h
  cases hF : m.find? (fun p => p.1 = k) with
  | none => rw [hF] at h; simp at h
  | some p =>
    rw [hF] at h
    simp only [Option.map] at h
    rw [Option.some_inj] at h
    have h1 : p.1 = k := by simpa using List.find?_some hF
    have h2 : p ∈ m := List.mem_of_find?_eq_some hF
    have h3 : p = (k, e) := by
      cases p
      simp_all
    rwa [h3] at h2

theorem serverConnect_accept (A : AuthEnv) (st : ServerState)
    (sid : String) (tok : Option String) (now : Nat) (uid : String)
    (u : UserInfo) (hA : serverAuth A tok = some (uid, u))
    (hFresh : st.sessions.any (fun c => c.sessionId = sid) = false) :
    serverConnect A st sid tok now =
      ⟨⟨mapSet st.onlineUsers uid ⟨sid, u, now⟩,
        ⟨sid, uid, u⟩ :: st.sessions,
        (sid, sid) :: (sid, uid) :: st.rooms⟩,
       [Emission.toAll "onlineUsers" (Payload.userList
          (mapKeys (mapSet st.onlineUsers uid ⟨sid, u, now⟩))),
        Emission.broadcastFrom sid "userOnline" (Payload.uid uid)],
       true⟩ := by
  simp [serverConnect, hA, hFresh]

/-! ### Claim theorems -/

/-- Claim C4 (confirmed): a connection attempt whose credential is
missing, invalid or resolves to no user record is rejected before the
registry is touched: the state is unchanged (no session, no room
membership, no presence entry) and no emission of any kind occurs, in
both variants. -/
theorem c4_auth_gate_atomic (A : AuthEnv) (st : ServerState)
    (sid : String) (tok : Option String) (now : Nat)
    (h : serverAuth A tok = none) :
    serverConnect A st sid tok now = ⟨st, [], false⟩ ∧
    p9Connect A st sid tok now = ⟨st, [], false⟩ := by
  constructor
  · rw [serverConnect, h]
  · rw [p9Connect, h]

theorem c4_auth_gate_atomic_witness :
    serverAuth authEnvW none = none ∧
    serverConnect authEnvW initState "s1" none 0 =
      ⟨initState, [], false⟩ :=
  ⟨rfl, (c4_auth_gate_atomic authEnvW initState "s1" none 0 rfl).1⟩

/-- Claim C2, counterexample: after user `u0` registers sessions `s1`
and `s2` and only `s1` disconnects, a live session of `u0` remains but
the presence entry is gone — refuting the claimed equivalence between
presence entries and live sessions. -/
theorem c2_counterexample :
    ((serverReach authEnvW trC2).sessions.any
      (fun c => c.userId = "u0")) = true ∧
    mapHas (serverReach authEnvW trC2).onlineUsers "u0" = false := by
  decide

/-- Claim C2 (amended): only the forward direction of the invariant
holds — whenever a presence entry for user `u` exists in a reachable
state, `u` has at least one live session, namely the one whose socket
id the entry stores; the reverse direction fails because a disconnect
of any of the user's sockets deletes the entry (it is removed, not
flagged) even when other sessions remain live. -/
theorem c2_entry_implies_live_session (A : AuthEnv)
    (evs : List SockEvent) (u : String) (e : Entry)
    (h : mapFind (serverReach A evs).onlineUsers u = some e) :
    ∃ ctx, ctx ∈ (serverReach A evs).sessions ∧ ctx.userId = u ∧
      ctx.sessionId = e.socketId := by
  have hInv := regInv_serverReach A evs
  have hmem : (u, e) ∈ (serverReach A evs).onlineUsers :=
    mapFind_mem _ _ _ h
  exact hInv.2 (u, e) hmem

theorem c2_entry_implies_live_session_witness :
    mapFind (serverReach authEnvW
        [SockEvent.connect "s1" (some "u0") 0]).onlineUsers "u0" =
      some ⟨"s1", aliceInfo, 0⟩ ∧
    (∃ ctx, ctx ∈ (serverReach authEnvW
        [SockEvent.connect "s1" (some "u0") 0]).sessions ∧
      ctx.userId = "u0" ∧ ctx.sessionId = "s1") :=
  ⟨by decide,
   c2_entry_implies_live_session authEnvW
     [SockEvent.connect "s1" (some "u0") 0] "u0" ⟨"s1", aliceInfo, 0⟩
     (by decide)⟩

/-- Claim C1, counterexample: registering `s1` then `s2` for `u0` and
removing only `s1` already reports `u0` offline, because the second
registration overwrote the single registry slot and the disconnect
handler deletes the whole entry keyed by user id. -/
theorem c1_counterexample :
    isUserOnline (serverReach authEnvW trC2).onlineUsers "u0" = false := by
  decide

/-- Claim C1 (amended): the registry holds at most one session per
user.  Registering `s2` after `s1` for the same user replaces the
registry entry (the stored socket id becomes `s2`), and removing only
`s1` deletes the user's entry outright, so `isOnline(U)` is already
false while `s2` is still live; no last-seen is recorded at disconnect
in this variant — the entry, including its connect-time `lastSeen`, is
simply deleted. -/
theorem c1_registry_single_session (A : AuthEnv) (st : ServerState)
    (s1 s2 u tok1 tok2 : String) (a b : UserInfo) (t1 t2 : Nat)
    (hA1 : serverAuth A (some tok1) = some (u, a))
    (hA2 : serverAuth A (some tok2) = some (u, b))
    (hss : ¬ s1 = s2)
    (h1 : st.sessions.any (fun c => c.sessionId = s1) = false)
    (h2 : st.sessions.any (fun c => c.sessionId = s2) = false) :
    mapFind (serverConnect A (serverConnect A st s1 (some tok1) t1).state
        s2 (some tok2) t2).state.onlineUsers u = some ⟨s2, b, t2⟩ ∧
    isUserOnline (serverDisconnect (serverConnect A
        (serverConnect A st s1 (some tok1) t1).state
        s2 (some tok2) t2).state s1).1.onlineUsers u = false := by
  have hState1 : (serverConnect A st s1 (some tok1) t1).state =
      ⟨mapSet st.onlineUsers u ⟨s1, a, t1⟩,
        ⟨s1, u, a⟩ :: st.sessions,
        (s1, s1) :: (s1, u) :: st.rooms⟩ := by
    rw [serverConnect_accept A st s1 (some tok1) t1 u a hA1 h1]
  have hFresh2 : (((⟨s1, u, a⟩ : SessionCtx) :: st.sessions).any
      (fun c => c.sessionId = s2)) = false := by
    simp [List.any_cons, hss, h2]
  have hState2 : (serverConnect A (serverConnect A st s1 (some tok1) t1).state
      s2 (some tok2) t2).state =
      ⟨mapSet (mapSet st.onlineUsers u ⟨s1, a, t1⟩) u ⟨s2, b, t2⟩,
        ⟨s2, u, b⟩ :: ⟨s1, u, a⟩ :: st.sessions,
        (s2, s2) :: (s2, u) :: (s1, s1) :: (s1, u) :: st.rooms⟩ := by
    rw [hState1,
      serverConnect_accept A
        ⟨mapSet st.onlineUsers u ⟨s1, a, t1⟩, ⟨s1, u, a⟩ :: st.sessions,
          (s1, s1) :: (s1, u) :: st.rooms⟩ s2 (some tok2) t2 u b hA2
        hFresh2]
  constructor
  · rw [hState2]
    exact mapFind_mapSet_self _ _ _
  · have hss2 : ¬ s2 = s1 := fun hh => hss hh.symm
    have hFind : (serverConnect A (serverConnect A st s1 (some tok1) t1).state
        s2 (some tok2) t2).state.sessions.find?
        (fun c => c.sessionId = s1) = some ⟨s1, u, a⟩ := by
      rw [hState2]
      rw [List.find?_cons_of_neg _ (by simp [hss2]),
        List.find?_cons_of_pos _ (by simp)]
    have hDel : (serverDisconnect (serverConnect A
        (serverConnect A st s1 (some tok1) t1).state
        s2 (some tok2) t2).state s1).1.onlineUsers =
        mapDelete (mapSet (mapSet st.onlineUsers u ⟨s1, a, t1⟩) u
          ⟨s2, b, t2⟩) u := by
      rw [serverDisconnect, hFind]
      rw [hState2]
    rw [hDel]
    exact mapHas_mapDelete_self _ _

theorem c1_registry_single_session_witness :
    serverAuth authEnvW (some "u0") = some ("u0", aliceInfo) ∧
    isUserOnline (serverDisconnect (serverConnect authEnvW
        (serverConnect authEnvW initState "s1" (some "u0") 0).state
        "s2" (some "u0") 1).state "s1").1.onlineUsers "u0" = false :=
  ⟨by decide,
   (c1_registry_single_session authEnvW initState "s1" "s2" "u0" "u0" "u0"
     aliceInfo aliceInfo 0 1 (by decide) (by decide) (by decide)
     (by decide) (by decide)).2⟩

/-- Claim C3, counterexample: the trace in which user `u0` connects
socket `s1` and then socket `s2` produces two `userOnline` broadcasts
for `u0` and no intervening `userOffline` — the transition broadcast
is emitted on every registration, not only on the offline-to-online
transition. -/
theorem c3_counterexample :
    ((serverTrace authEnvW initState trC3).2.filter
      (isOnlineBroadcast "u0")).length = 2 ∧
    ((serverTrace authEnvW initState trC3).2.filter
      (isOfflineBroadcast "u0")).length = 0 := by
  decide

/-- Claim C3 (amended): the `userOnline` transition broadcast is
emitted unconditionally on every accepted session registration — in
particular also when the user already has a live session and is
already online, so duplicate online events for the same user do
occur. -/
theorem c3_online_broadcast_unconditional (A : AuthEnv)
    (st : ServerState) (sid : String) (tok : Option String) (now : Nat)
    (u : String) (usr : UserInfo)
    (hA : serverAuth A tok = some (u, usr))
    (hFresh : st.sessions.any (fun c => c.sessionId = sid) = false)
    (hOnline : isUserOnline st.onlineUsers u = true) :
    Emission.broadcastFrom sid "userOnline" (Payload.uid u) ∈
      (serverConnect A st sid tok now).ems := by
  simp [serverConnect, hA, hFresh]

theorem c3_online_broadcast_unconditional_witness :
    isUserOnline (serverConnect authEnvW initState "s1" (some "u0")
        0).state.onlineUsers "u0" = true ∧
    Emission.broadcastFrom "s2" "userOnline" (Payload.uid "u0") ∈
      (serverConnect authEnvW (serverConnect authEnvW initState "s1"
        (some "u0") 0).state "s2" (some "u0") 1).ems :=
  ⟨by decide,
   c3_online_broadcast_unconditional authEnvW
     (serverConnect authEnvW initState "s1" (some "u0") 0).state
     "s2" (some "u0") 1 "u0" aliceInfo (by decide) (by decide)
     (by decide)⟩

/-- Claim C5, counterexample: the `P9` `send_message` handler performs
no validation.  A payload whose `message` lacks the required `content`
field is still forwarded to the connected receiver's room and no error
event is emitted to the sender, contradicting the claimed
malformed-payload semantics. -/
theorem c5_counterexample :
    (p9SendMessage stP9 "sA" ⟨some "B", some mdNoContent⟩).1 =
      [Emission.toRoom "user_B" "receive_message"
        (Payload.message (some mdNoContent)),
       Emission.toSocket "sA" "message_delivered"
        (Payload.delivered (some "m1"))] ∧
    deliversTo stP9 (Emission.toRoom "user_B" "receive_message"
      (Payload.message (some mdNoContent))) "sB" = true ∧
    truthy mdNoContent.content = false := by
  decide

/-- Claim C5 (amended): in the `server.js` variant the claim holds — a
malformed `sendMessage` payload (absent data, falsy receiver or falsy
content) produces exactly one `messageError` emission addressed to the
originating socket, no state mutation, and that error emission is not
delivered to any other socket.  The `P9` variant does not validate and
forwards the malformed payload to the receiver. -/
theorem c5_server_malformed_isolated (st : ServerState) (sid : String)
    (data : Option MessageData)
    (hLive : st.sessions.any (fun c => c.sessionId = sid) = true)
    (hBad : msgValid data = false) :
    serverSendMessage st sid data =
      (st, [Emission.toSocket sid "messageError"
        (Payload.errText "Invalid message data")]) ∧
    ∀ s2, ¬ s2 = sid →
      deliversTo st (Emission.toSocket sid "messageError"
        (Payload.errText "Invalid message data")) s2 = false := by
  constructor
  · simp [serverSendMessage, hLive, hBad]
  · intro s2 hne
    simp [deliversTo, hne]

theorem c5_server_malformed_isolated_witness :
    msgValid (some mdNoContent) = false ∧
    serverSendMessage stC6 "sA" (some mdNoContent) =
      (stC6, [Emission.toSocket "sA" "messageError"
        (Payload.errText "Invalid message data")]) :=
  ⟨by decide,
   (c5_server_malformed_isolated stC6 "sA" (some mdNoContent)
     (by decide) (by decide)).1⟩

/-- Claim C6, counterexample: two sockets authenticated as different
users (`A` and `B`) emit `sendMessage` with the same client-supplied
payload whose `sender` field is `X`; the receiver-visible `newMessage`
payload is that payload verbatim in both cases, so both deliveries are
attributed to the same client-chosen sender, refuting sender
authenticity. -/
theorem c6_counterexample :
    (serverSendMessage stC6 "sA" (some mdSpoof)).2.head? =
      some (Emission.toRoomExcept "R" "sA" "newMessage"
        (Payload.message (some mdSpoof))) ∧
    (serverSendMessage stC6 "sB" (some mdSpoof)).2.head? =
      some (Emission.toRoomExcept "R" "sB" "newMessage"
        (Payload.message (some mdSpoof))) ∧
    mdSpoof.sender = some "X" ∧
    ¬ (("A" : String) = "B") := by
  decide

/-- Claim C6 (amended): the `sendMessage` handler forwards the
client-supplied `messageData` verbatim to the receiver room; the
sender identity visible to the receiver is whatever `sender` field the
client put in the payload, and the session's authenticated identity is
not stamped onto it. -/
theorem c6_payload_forwarded_verbatim (st : ServerState) (sid : String)
    (d : MessageData)
    (hLive : st.sessions.any (fun c => c.sessionId = sid) = true)
    (hValid : msgValid (some d) = true) :
    (serverSendMessage st sid (some d)).2 =
      [Emission.toRoomExcept (receiverIdOf d) sid "newMessage"
        (Payload.message (some d)),
       Emission.toSocket sid "messageDelivered"
        (Payload.delivered d.mid)] := by
  simp [serverSendMessage, hLive, hValid]

theorem c6_payload_forwarded_verbatim_witness :
    msgValid (some mdSpoof) = true ∧
    (serverSendMessage stC6 "sA" (some mdSpoof)).2 =
      [Emission.toRoomExcept "R" "sA" "newMessage"
        (Payload.message (some mdSpoof)),
       Emission.toSocket "sA" "messageDelivered"
        (Payload.delivered (some "m7"))] :=
  ⟨by decide,
   c6_payload_forwarded_verbatim stC6 "sA" mdSpoof (by decide)
     (by decide)⟩

/-- Claim C7, counterexample: the `friend_request_received` push of
the guarded `sendConnectionRequest` handler is identical under two
notification stores whose unread counts differ (5 versus 99), and the
emitted envelope consists of the connection and sender-identity fields
only — no unread count is recomputed or attached at emission time. -/
theorem c7_counterexample :
    sendConnectionRequestGuarded depsOk storeA "a" "b" aliceInfo =
      sendConnectionRequestGuarded depsOk storeB "a" "b" aliceInfo ∧
    (sendConnectionRequestGuarded depsOk storeA "a" "b"
        aliceInfo).emissions =
      [emitToUser "b" "friend_request_received"
        (Payload.connReqEnvelope "a" "Alice" "a.png" "developer")] ∧
    ¬ storeA.countUnread "b" = storeB.countUnread "b" := by
  refine ⟨rfl, rfl, ?_⟩
  decide

/-- Claim C7 (amended): notification envelopes carry the event name
and event-specific data only.  The REST-triggered push never consults
the notification store's unread-count query: two stores agreeing on
create success produce identical handler outputs, so no live unread
count is recomputed at emission time. -/
theorem c7_push_ignores_unread_store (deps : RestDeps)
    (s1 s2 : NotificationStore) (requesterId recipientId : String)
    (requester : UserInfo) (hc : s1.createOk = s2.createOk) :
    sendConnectionRequestGuarded deps s1 requesterId recipientId
        requester =
      sendConnectionRequestGuarded deps s2 requesterId recipientId
        requester := by
  unfold sendConnectionRequestGuarded
  rw [hc]

theorem c7_push_ignores_unread_store_witness :
    storeA.createOk = storeB.createOk ∧
    sendConnectionRequestGuarded depsOk storeA "a" "b" aliceInfo =
      sendConnectionRequestGuarded depsOk storeB "a" "b" aliceInfo :=
  ⟨rfl,
   c7_push_ignores_unread_store depsOk storeA storeB "a" "b" aliceInfo
     rfl⟩

/-- Claim C8, counterexample: in the `part_005` variant of
`sendConnectionRequest`, the unguarded `await createNotification` means
a notification-store failure after a successful `connection.save()`
reaches the outer catch: the request answers 500 even though the
domain write succeeded, refuting best-effort push for every REST
handler. -/
theorem c8_counterexample :
    sendConnectionRequestP5 depsQuiet storeFail "a" "b" =
      ⟨500, false, [], false⟩ ∧
    depsQuiet.saveOk = true := by
  decide

/-- Claim C8 (amended): the guarded variant of
`sendConnectionRequest` (the connection controller bundled in
`controllers/notificationControllers.js`) satisfies the claim — once
the pre-checks pass and the domain write succeeds, the request answers
201 regardless of notification-store failure or push failure; the
`part_005` variant violates it because its store call is unguarded. -/
theorem c8_guarded_push_best_effort (deps : RestDeps)
    (store : NotificationStore) (requesterId recipientId : String)
    (requester : UserInfo)
    (h0 : ¬ requesterId = recipientId)
    (h1 : deps.recipientExists = true)
    (h2 : deps.existingConnection = false)
    (h3 : deps.saveOk = true) :
    (sendConnectionRequestGuarded deps store requesterId recipientId
      requester).status = 201 ∧
    (sendConnectionRequestGuarded deps store requesterId recipientId
      requester).ok = true := by
  constructor
  · simp [sendConnectionRequestGuarded, h0, h1, h2, h3]
  · simp [sendConnectionRequestGuarded, h0, h1, h2, h3]

theorem c8_guarded_push_best_effort_witness :
    storeFail.createOk = false ∧
    (sendConnectionRequestGuarded depsOk storeFail "a" "b"
      aliceInfo).status = 201 :=
  ⟨rfl,
   (c8_guarded_push_best_effort depsOk storeFail "a" "b" aliceInfo
     (by decide) rfl rfl rfl).1⟩

/-- Claim C9 (confirmed): the `P9` `join_user_room` handler lets any
connected session join the personal channel `user_X` of an arbitrary
client-supplied user id `X`, with no ownership check; afterwards a
`send_message` addressed to `X` is delivered to the joining session as
well, even though it is owned by a different user. -/
theorem c9_join_user_room_unrestricted (st : ServerState)
    (ctx : SessionCtx) (x sid2 : String) (msg : MessageData)
    (hCtx : ctx ∈ st.sessions) (hOwn : ¬ ctx.userId = x)
    (hSend : (p9JoinUserRoom st ctx.sessionId x).sessions.any
      (fun c => c.sessionId = sid2) = true) :
    (ctx.sessionId, "user_" ++ x) ∈
      (p9JoinUserRoom st ctx.sessionId x).rooms ∧
    (p9SendMessage (p9JoinUserRoom st ctx.sessionId x) sid2
        ⟨some x, some msg⟩).1.head? =
      some (Emission.toRoom ("user_" ++ x) "receive_message"
        (Payload.message (some msg))) ∧
    deliversTo (p9JoinUserRoom st ctx.sessionId x)
      (Emission.toRoom ("user_" ++ x) "receive_message"
        (Payload.message (some msg))) ctx.sessionId = true := by
  have hAny : st.sessions.any (fun c => c.sessionId = ctx.sessionId) =
      true := List.any_eq_true.mpr ⟨ctx, hCtx, by simp⟩
  have hJ : p9JoinUserRoom st ctx.sessionId x =
      { st with rooms := (ctx.sessionId, "user_" ++ x) :: st.rooms } := by
    simp [p9JoinUserRoom, hAny]
  refine ⟨?_, ?_, ?_⟩
  · rw [hJ]
    exact List.mem_cons_self _ _
  · rw [hJ] at hSend ⊢
    simp [p9SendMessage, hSend, jsStr]
  · rw [hJ]
    simp [deliversTo, List.any_cons]

theorem c9_join_user_room_unrestricted_witness :
    (⟨"sA", "A", aliceInfo⟩ : SessionCtx) ∈ stP9.sessions ∧
    ¬ ("A" : String) = "B" ∧
    deliversTo (p9JoinUserRoom stP9 "sA" "B")
      (Emission.toRoom "user_B" "receive_message"
        (Payload.message (some mdSpoof))) "sA" = true :=
  ⟨by decide, by decide,
   (c9_join_user_room_unrestricted stP9 ⟨"sA", "A", aliceInfo⟩ "B" "sB"
     mdSpoof (by decide) (by decide) (by decide)).2.2⟩

/-- Claim C10 (confirmed): in the `server.js` variant every socket
only ever joins its transport-id room and its bare-user-id room, while
`emitToUser` always targets the prefixed room `user_` ++ userId; as
long as no live session's socket id or user id collides with that
prefixed name, a REST-triggered push through `emitToUser` is delivered
to no socket at all — even when the target user is online. -/
theorem c10_rest_push_undeliverable (A : AuthEnv)
    (evs : List SockEvent) (u event : String) (data : Payload)
    (hFresh : ∀ ctx ∈ (serverReach A evs).sessions,
      ¬ ctx.sessionId = "user_" ++ u ∧ ¬ ctx.userId = "user_" ++ u) :
    ∀ sid, deliversTo (serverReach A evs) (emitToUser u event data)
      sid = false := by
  intro sid
  have hInv := roomInv_serverReach A evs
  unfold emitToUser deliversTo
  rw [List.any_eq_false]
  intro m hm
  simp only [decide_eq_true_eq, not_and]
  intro _ h2
  rcases hInv m hm with ⟨ctx, hc, _, hor⟩
  rcases hor with hA | hB
  · exact (hFresh ctx hc).1 (by rw [← hA, ← h2])
  · exact (hFresh ctx hc).2 (by rw [← hB, ← h2])

theorem c10_rest_push_undeliverable_witness :
    isUserOnline (serverReach authEnvW
      [SockEvent.connect "s1" (some "u0") 0]).onlineUsers "u0" = true ∧
    deliversTo (serverReach authEnvW
        [SockEvent.connect "s1" (some "u0") 0])
      (emitToUser "u0" "friend_request_received"
        (Payload.connReqEnvelope "a" "Alice" "a.png" "developer"))
      "s1" = false :=
  ⟨by decide,
   c10_rest_push_undeliverable authEnvW
     [SockEvent.connect "s1" (some "u0") 0] "u0"
     "friend_request_received"
     (Payload.connReqEnvelope "a" "Alice" "a.png" "developer")
     (by decide) "s1"⟩
